import Mathlib

/-!
Verification of the data-loading / validation / filtering pipeline of
`GlobalPopulationDashboard.py` (a single-file pandas + streamlit dashboard).

The embedding models:
- a raw CSV table as parsed by `pd.read_csv` (`RawTable`): a header (list of
  column names) plus rows whose four core numeric cells may hold a numeric
  value, a non-numeric string, or be missing;
- `pd.to_numeric(col, errors="coerce")` as `toNum : RawVal → Option ℚ`
  (unparsable and missing both become `none`, i.e. NaN);
- `load_data` including its `try/except` boundary: the result is either a
  validated dataset (list of `Record`) or a reported failure (`st.error` was
  called and `None` returned, after which the app stops via `st.stop()`);
- the aggregation helpers (`sum`, `mean`, `nlargest`), the tab-3 continent
  filter and country lookup (`.iloc[0]`), the tab-4 `isin` filter, `melt`,
  and the tab-4 empty-selection guard.

Numeric cells are modelled as ℚ (pandas floats on clean data), with `Option`
for NaN / raised-exception outcomes; no floating-point rounding is claimed.
-/

/-- One validated row of the dataset: the string columns the dashboard reads
and the four core numeric columns, already coerced to numbers. -/
structure Record where
  country : String
  iso_alpha3 : String
  continent : String
  population : ℚ
  density : ℚ
  totalDependency : ℚ
  sexRatio : ℚ
deriving DecidableEq, Repr

/-- A raw cell of a numeric column as it comes out of `pd.read_csv`: a
numeric value, a string that does not parse as a number, or a missing value
(already NaN). -/
inductive RawVal where
  | num (q : ℚ)
  | nonNumeric
  | missing
deriving DecidableEq, Repr

/-- `pd.to_numeric(·, errors="coerce")` on one cell: numbers survive,
unparsable and missing cells become NaN (`none`). -/
def toNum : RawVal → Option ℚ
  | .num q => some q
  | .nonNumeric => none
  | .missing => none

/-- One raw row of the CSV: string columns plus the four core numeric cells
before coercion. -/
structure RawRow where
  country : String
  iso_alpha3 : String
  continent : String
  population : RawVal
  density : RawVal
  totalDependency : RawVal
  sexRatio : RawVal
deriving DecidableEq, Repr

/-- A parsed CSV file: the header (`df.columns`) and the rows, in file
order. Column presence is governed by `columns`; the loader only touches a
row's cells after the schema checks pass. -/
structure RawTable where
  columns : List String
  rows : List RawRow
deriving DecidableEq, Repr

/-- The `numeric_cols` list of `load_data`. -/
def numericCols : List String :=
  ["Population(in millions)", "Population density", "Total Dependency Ratio",
   "Sex ratio (males per 100 females)"]

/-- A raw row survives validation iff all four core numeric cells coerce:
this is `pd.to_numeric` on each column followed by
`df.dropna(subset=numeric_cols)` restricted to one row. -/
def rowComplete (r : RawRow) : Bool :=
  (toNum r.population).isSome && (toNum r.density).isSome &&
  (toNum r.totalDependency).isSome && (toNum r.sexRatio).isSome

/-- Coerce one raw row: `some` (with the parsed numbers) iff every core
numeric cell parses, `none` iff the row is dropped by `dropna`. -/
def coerceRow (r : RawRow) : Option Record :=
  match toNum r.population, toNum r.density, toNum r.totalDependency,
      toNum r.sexRatio with
  | some p, some d, some t, some s =>
      some ⟨r.country, r.iso_alpha3, r.continent, p, d, t, s⟩
  | _, _, _, _ => none

/-- Rows of `load_data` after coercion and `dropna`, in file order. -/
def validateRows (rows : List RawRow) : List Record :=
  rows.filterMap coerceRow

/-- What `pd.read_csv(file_path)` can yield at the `load_data` boundary: the
file is absent (raises `FileNotFoundError`), some other read/parse failure
(raises another exception), or a parsed table. -/
inductive FileReadResult where
  | notFound
  | parseFail
  | table (t : RawTable)
deriving DecidableEq, Repr

/-- The reported failures of `load_data`: file absent, the required
`Continent` column absent (schema failure), or any other exception caught by
the blanket `except Exception` clause. -/
inductive AppError where
  | fileNotFound
  | schemaError
  | otherError
deriving DecidableEq, Repr

/-- Outcome of `load_data`: either the validated dataset, or a failure that
was reported via `st.error` with `None` returned to the caller. -/
inductive LoadOutcome where
  | success (d : List Record)
  | failure (e : AppError)
deriving DecidableEq, Repr

/-- `load_data` of the source: inside `try`, read the CSV; error out with a
schema failure if `Continent` is not among the columns; otherwise coerce the
four numeric columns (a missing numeric column raises `KeyError`, caught by
the blanket `except` as an "other" error) and drop incomplete rows.
`FileNotFoundError` and any other exception are caught and reported. -/
def load_data : FileReadResult → LoadOutcome
  | .notFound => .failure .fileNotFound
  | .parseFail => .failure .otherError
  | .table t =>
      if "Continent" ∈ t.columns then
        if numericCols.all (fun c => t.columns.contains c) then
          .success (validateRows t.rows)
        else
          .failure .otherError
      else
        .failure .schemaError

/-- `if df is None: st.stop()` — the app halts exactly on a load failure. -/
def appHalts : LoadOutcome → Bool
  | .success _ => false
  | .failure _ => true

/-- A concrete raw row whose numeric cells all parse. -/
def exRawChina : RawRow :=
  ⟨"China", "CHN", "Asia", .num 1425, .num 151, .num 44, .num 105⟩

/-- A concrete raw row whose numeric cells all parse. -/
def exRawKenya : RawRow :=
  ⟨"Kenya", "KEN", "Africa", .num 55, .num 97, .num 69, .num 99⟩

/-- A concrete raw row with one unparsable numeric cell (dropped by
validation). -/
def exRawBad : RawRow :=
  ⟨"Nowhere", "NWH", "Other", .nonNumeric, .num 1, .num 2, .missing⟩

/-- A concrete input table with the full header and one incomplete row. -/
def exTable : RawTable :=
  ⟨["Country", "iso_alpha3", "Continent", "Population(in millions)",
    "Population density", "Total Dependency Ratio",
    "Sex ratio (males per 100 females)"],
   [exRawChina, exRawBad, exRawKenya]⟩

/-- A concrete input table lacking the `Continent` column, with an
unparsable numeric cell in its rows. -/
def exBadTable : RawTable :=
  ⟨["Country", "Population(in millions)"], [exRawBad]⟩

/-- `df["Population(in millions)"].sum()` of tab 1. An empty column sums
to 0. -/
def total_pop (D : List Record) : ℚ :=
  (D.map Record.population).sum

/-- `df[col].mean()`: the arithmetic mean of a numeric column. On an empty
column pandas returns NaN without raising; `none` models NaN. -/
def avgMetric (f : Record → ℚ) (D : List Record) : Option ℚ :=
  if D.isEmpty then none else some ((D.map f).sum / (D.length : ℚ))

/-- `df["Population density"].mean()` of tab 1. -/
def avg_density (D : List Record) : Option ℚ :=
  avgMetric Record.density D

/-- `df["Sex ratio (males per 100 females)"].mean()` of tab 1. -/
def avg_sex_ratio (D : List Record) : Option ℚ :=
  avgMetric Record.sexRatio D

/-- Insert `x` into `l` for a descending sort by `key`: `x` goes before the
first element whose key is ≤ its own, so among equal keys the earlier
(already-inserted-later) elements keep their place. -/
def insertDesc {α : Type} (key : α → ℚ) (x : α) : List α → List α
  | [] => [x]
  | y :: ys => if key y ≤ key x then x :: y :: ys else y :: insertDesc key x ys

/-- Stable descending insertion sort by `key`: equal-key elements stay in
their original relative order. -/
def sortDesc {α : Type} (key : α → ℚ) : List α → List α
  | [] => []
  | x :: xs => insertDesc key x (sortDesc key xs)

/-- `df.nlargest(n, col)` with the default `keep="first"`: the first `n`
rows of a stable descending sort by the column, so ties are broken by
original row order. -/
def nlargest {α : Type} (n : ℕ) (key : α → ℚ) (l : List α) : List α :=
  (sortDesc key l).take n

/-- The tab-3 continent filter: the sentinel `"All"` keeps the whole
dataset, any other selection keeps the rows whose `Continent` equals it
(`df[df["Continent"] == selected_continent]`). -/
def continentFilter (c : String) (D : List Record) : List Record :=
  if c = "All" then D else D.filter (fun r => decide (r.continent = c))

/-- Outcome of the tab-3 single-country lookup. `record` and
`uncaughtIndexError` are the two behaviours of the code
(`df[df["Country"] == selected_country].iloc[0]`, which raises `IndexError`
on an empty selection and has no surrounding `try/except`). The
`notFoundError` constructor is the typed, reported failure named by the
spec's error taxonomy; it is representable here so the spec's claim can be
stated, but the code never produces it. -/
inductive LookupOutcome where
  | record (r : Record)
  | notFoundError
  | uncaughtIndexError
deriving DecidableEq, Repr

/-- `df[df["Country"] == selected_country].iloc[0]`: the first row whose
country matches, or an uncaught `IndexError` when no row matches. -/
def countryLookup (D : List Record) (name : String) : LookupOutcome :=
  match D.filter (fun r => decide (r.country = name)) with
  | [] => .uncaughtIndexError
  | r :: _ => .record r

/-- The tab-4 multi-country filter
`df[df["Country"].isin(countries_to_compare)]`: keep rows whose country is
among the selected names, in dataset order. -/
def filterCountries (selected : List String) (D : List Record) : List Record :=
  D.filter (fun r => selected.contains r.country)

/-- The four metric columns passed to `melt` as `value_vars` in tab 4. -/
inductive MetricCol where
  | population
  | density
  | totalDependency
  | sexRatio
deriving DecidableEq, Repr

/-- The CSV column name of a metric (the string that `melt` puts in its
`Metric` output column). -/
def MetricCol.colName : MetricCol → String
  | .population => "Population(in millions)"
  | .density => "Population density"
  | .totalDependency => "Total Dependency Ratio"
  | .sexRatio => "Sex ratio (males per 100 females)"

/-- The cell of a record in a metric column. -/
def MetricCol.get : MetricCol → Record → ℚ
  | .population => Record.population
  | .density => Record.density
  | .totalDependency => Record.totalDependency
  | .sexRatio => Record.sexRatio

/-- The `value_vars` list of the tab-4 `melt` call. -/
def meltValueVars : List MetricCol :=
  [.population, .density, .totalDependency, .sexRatio]

/-- One output row of `melt`: `id_vars` column `Country`, the `var_name`
column `Metric` (holding a source column name), and the `value_name` column
`Value`. -/
structure MeltRow where
  country : String
  metric : String
  value : ℚ
deriving DecidableEq, Repr

/-- `comp_df.melt(id_vars="Country", value_vars=..., var_name="Metric",
value_name="Value")`: for each value column in order, one output row per
input row, carrying that row's country and its cell in the column. -/
def melt (metrics : List MetricCol) (D : List Record) : List MeltRow :=
  (metrics.map (fun m => D.map (fun r => MeltRow.mk r.country m.colName (m.get r)))).flatten

/-- What tab 4 renders: either the comparison view (filtered table plus the
melted chart data) or the `st.info` prompt. -/
inductive Tab4Output where
  | comparison (table : List Record) (chart : List MeltRow)
  | infoPrompt
deriving DecidableEq, Repr

/-- Tab 4: `if countries_to_compare:` — a non-empty selection is filtered
and melted; an empty selection only shows the informational prompt. -/
def tab4Render (D : List Record) (selected : List String) : Tab4Output :=
  match selected with
  | [] => .infoPrompt
  | _ :: _ =>
      .comparison (filterCountries selected D)
        (melt meltValueVars (filterCountries selected D))

/-- A concrete validated record. -/
def exChina : Record := ⟨"China", "CHN", "Asia", 1425, 151, 44, 105⟩

/-- A concrete validated record. -/
def exIndia : Record := ⟨"India", "IND", "Asia", 1428, 481, 47, 107⟩

/-- A concrete validated record. -/
def exKenya : Record := ⟨"Kenya", "KEN", "Africa", 55, 97, 69, 99⟩

/-- A concrete three-record dataset. -/
def exD : List Record := [exChina, exIndia, exKenya]

/-- A concrete two-record dataset. -/
def exD2 : List Record := [exChina, exKenya]

theorem coerceRow_isSome_iff (r : RawRow) :
    (coerceRow r).isSome = rowComplete r := by
  cases hp : toNum r.population <;> cases hd : toNum r.density <;>
    cases ht : toNum r.totalDependency <;> cases hs : toNum r.sexRatio <;>
    simp [coerceRow, rowComplete, hp, hd, ht, hs]

theorem validateRows_length_add (rows : List RawRow) :
    (validateRows rows).length +
      (rows.filter (fun r => ! rowComplete r)).length = rows.length := by
  induction rows with
  | nil => simp [validateRows]
  | cons r rs ih =>
      simp only [validateRows] at ih ⊢
      cases hco : coerceRow r with
      | none =>
          have hrc : rowComplete r = false := by
            have hi := coerceRow_isSome_iff r
            rw [hco] at hi
            simpa using hi.symm
          simp only [List.filterMap_cons, hco, List.filter_cons, hrc,
            Bool.not_false, if_pos, List.length_cons]
          omega
      | some rec =>
          have hrc : rowComplete r = true := by
            have hi := coerceRow_isSome_iff r
            rw [hco] at hi
            simpa using hi.symm
          simp only [List.filterMap_cons, hco, List.filter_cons, hrc,
            Bool.not_true, if_neg, List.length_cons]
          simp only [Bool.false_eq_true, if_false]
          omega

/-- Claim C1: for every accepted input table, every record of the resulting
dataset comes from a raw row all four of whose core numeric cells coerced to
numbers (non-missing, numeric); a raw row is incomplete exactly when at
least one of the four coercions yields missing; and the resulting row count
is the original row count minus the count of excluded (incomplete) rows. -/
theorem c1_loader_invariant (t : RawTable) (D : List Record)
    (h : load_data (.table t) = .success D) :
    (∀ rec ∈ D, ∃ raw ∈ t.rows, rowComplete raw = true ∧
        raw.country = rec.country ∧
        toNum raw.population = some rec.population ∧
        toNum raw.density = some rec.density ∧
        toNum raw.totalDependency = some rec.totalDependency ∧
        toNum raw.sexRatio = some rec.sexRatio) ∧
    (∀ raw : RawRow, rowComplete raw = false ↔
        (toNum raw.population = none ∨ toNum raw.density = none ∨
         toNum raw.totalDependency = none ∨ toNum raw.sexRatio = none)) ∧
    D.length + (t.rows.filter (fun r => ! rowComplete r)).length =
      t.rows.length ∧
    D.length =
      t.rows.length - (t.rows.filter (fun r => ! rowComplete r)).length := by
  have hD : D = validateRows t.rows := by
    simp only [load_data] at h
    split at h
    · split at h
      · injection h with h
        exact h.symm
      · simp at h
    · simp at h
  subst hD
  refine ⟨?_, ?_, ?_, ?_⟩
  · intro rec hrec
    obtain ⟨raw, hraw, hco⟩ := List.mem_filterMap.mp hrec
    cases hp : toNum raw.population <;> cases hd : toNum raw.density <;>
      cases ht : toNum raw.totalDependency <;> cases hs : toNum raw.sexRatio <;>
      simp [coerceRow, hp, hd, ht, hs] at hco
    subst hco
    exact ⟨raw, hraw, by simp [rowComplete, hp, hd, ht, hs], rfl,
      by simp [hp], by simp [hd], by simp [ht], by simp [hs]⟩
  · intro raw
    cases hp : toNum raw.population <;> cases hd : toNum raw.density <;>
      cases ht : toNum raw.totalDependency <;> cases hs : toNum raw.sexRatio <;>
      simp [rowComplete, hp, hd, ht, hs]
  · exact validateRows_length_add t.rows
  · have := validateRows_length_add t.rows
    omega

/-- Claim C1 witness: a concrete table with one incomplete row out of three;
the loader accepts it and the counts agree. -/
theorem c1_loader_invariant_witness :
    load_data (.table exTable) = .success (validateRows exTable.rows) ∧
    (validateRows exTable.rows).length +
      (exTable.rows.filter (fun r => ! rowComplete r)).length =
      exTable.rows.length := by
  exact ⟨by decide,
    (c1_loader_invariant exTable (validateRows exTable.rows)
      (by decide)).2.2.1⟩

/-- Claim C2: for every file input the loader returns either a validated
dataset or a reported failure (after which the app halts), never raising
past its boundary: a missing file reports `fileNotFound`, any other parse
failure reports an error, a missing required column reports an error, and
whenever the schema checks pass the loader succeeds — per-row coercion
failures are absorbed by row exclusion and never become errors. -/
theorem c2_loader_contract :
    (∀ inp : FileReadResult,
        (∃ D, load_data inp = .success D) ∨ (∃ e, load_data inp = .failure e)) ∧
    load_data .notFound = .failure .fileNotFound ∧
    load_data .parseFail = .failure .otherError ∧
    (∀ t : RawTable, "Continent" ∉ t.columns →
        load_data (.table t) = .failure .schemaError) ∧
    (∀ t : RawTable, "Continent" ∈ t.columns →
        numericCols.all (fun c => t.columns.contains c) = true →
        load_data (.table t) = .success (validateRows t.rows)) ∧
    (∀ inp e, load_data inp = .failure e → appHalts (load_data inp) = true) := by
  refine ⟨?_, rfl, rfl, ?_, ?_, ?_⟩
  · intro inp
    cases h : load_data inp with
    | success D => exact Or.inl ⟨D, rfl⟩
    | failure e => exact Or.inr ⟨e, rfl⟩
  · intro t hc
    simp [load_data, hc]
  · intro t hc hcols
    have h2 : ∀ x ∈ numericCols, x ∈ t.columns := by
      intro x hx
      have hx2 := List.all_eq_true.mp hcols x hx
      simpa using hx2
    simp [load_data, hc]
    exact h2
  · intro inp e h
    rw [h]
    rfl

/-- Claim C2 witness: the loader reports a schema failure on a concrete
header without `Continent`, succeeds on a concrete full table containing an
unparsable row, and halts on a missing file. -/
theorem c2_loader_contract_witness :
    load_data (.table exBadTable) = .failure .schemaError ∧
    load_data (.table exTable) = .success (validateRows exTable.rows) ∧
    appHalts (load_data .notFound) = true :=
  ⟨c2_loader_contract.2.2.2.1 exBadTable (by decide),
   c2_loader_contract.2.2.2.2.1 exTable (by decide) (by decide),
   c2_loader_contract.2.2.2.2.2 .notFound .fileNotFound c2_loader_contract.2.1⟩

/-- Claim C5: a table whose header lacks the `Continent` column is rejected
with the schema failure and halts the pipeline, for every possible row
content — the check precedes numeric coercion, so unparsable numeric cells
(or even absent numeric columns) cannot change the outcome. -/
theorem c5_schema_error_before_coercion (cols : List String)
    (rows : List RawRow) (h : "Continent" ∉ cols) :
    load_data (.table ⟨cols, rows⟩) = .failure .schemaError ∧
    appHalts (load_data (.table ⟨cols, rows⟩)) = true := by
  constructor
  · simp [load_data, h]
  · simp [load_data, h, appHalts]

/-- Claim C5 witness: a concrete header without `Continent` over a row with
unparsable numeric cells yields the schema failure. -/
theorem c5_schema_error_before_coercion_witness :
    load_data (.table ⟨["Country", "Population(in millions)"], [exRawBad]⟩) =
      .failure .schemaError :=
  (c5_schema_error_before_coercion ["Country", "Population(in millions)"]
    [exRawBad] (by decide)).1

/-- Claim C9: the aggregation helpers are total on the empty dataset — the
population sum is 0, the mean helpers return NaN (`none`) without raising,
and the top-N ranking is empty, for every metric and every N. -/
theorem c9_empty_dataset_aggregations (f : Record → ℚ) (n : ℕ) :
    total_pop [] = 0 ∧ avgMetric f [] = none ∧ avg_density [] = none ∧
    avg_sex_ratio [] = none ∧ nlargest n f ([] : List Record) = [] := by
  refine ⟨rfl, rfl, rfl, rfl, ?_⟩
  simp [nlargest, sortDesc]

theorem perm_insertDesc {α : Type} (key : α → ℚ) (x : α) (l : List α) :
    (insertDesc key x l).Perm (x :: l) := by
  induction l with
  | nil => simp [insertDesc]
  | cons y ys ih =>
      by_cases h : key y ≤ key x
      · simp [insertDesc, h]
      · simp only [insertDesc, if_neg h]
        exact (ih.cons y).trans (List.Perm.swap x y ys)

theorem perm_sortDesc {α : Type} (key : α → ℚ) (l : List α) :
    (sortDesc key l).Perm l := by
  induction l with
  | nil => simp [sortDesc]
  | cons x xs ih =>
      exact (perm_insertDesc key x (sortDesc key xs)).trans (ih.cons x)

theorem sorted_insertDesc {α : Type} (key : α → ℚ) (x : α) (l : List α)
    (h : l.Sorted (fun a b => key b ≤ key a)) :
    (insertDesc key x l).Sorted (fun a b => key b ≤ key a) := by
  induction l with
  | nil => simp [insertDesc]
  | cons y ys ih =>
      rw [List.sorted_cons] at h
      obtain ⟨hy, hys⟩ := h
      by_cases hc : key y ≤ key x
      · simp only [insertDesc, if_pos hc]
        rw [List.sorted_cons]
        refine ⟨?_, List.sorted_cons.mpr ⟨hy, hys⟩⟩
        intro b hb
        rcases List.mem_cons.mp hb with rfl | hb2
        · exact hc
        · exact (hy b hb2).trans hc
      · simp only [insertDesc, if_neg hc]
        rw [List.sorted_cons]
        refine ⟨?_, ih hys⟩
        intro b hb
        have hb2 := (perm_insertDesc key x ys).mem_iff.mp hb
        rcases List.mem_cons.mp hb2 with rfl | hb3
        · exact le_of_not_le hc
        · exact hy b hb3

theorem sorted_sortDesc {α : Type} (key : α → ℚ) (l : List α) :
    (sortDesc key l).Sorted (fun a b => key b ≤ key a) := by
  induction l with
  | nil => simp [sortDesc]
  | cons x xs ih => exact sorted_insertDesc key x _ ih

theorem filter_insertDesc {α : Type} (key : α → ℚ) (x : α) (c : ℚ)
    (l : List α) :
    (insertDesc key x l).filter (fun a => decide (key a = c)) =
      if key x = c then x :: l.filter (fun a => decide (key a = c))
      else l.filter (fun a => decide (key a = c)) := by
  induction l with
  | nil =>
      by_cases hx : key x = c <;> simp [insertDesc, hx]
  | cons y ys ih =>
      by_cases hc : key y ≤ key x
      · simp only [insertDesc, if_pos hc]
        by_cases hx : key x = c <;> simp [List.filter_cons, hx]
      · simp only [insertDesc, if_neg hc]
        by_cases hy : key y = c
        · have hxc : key x ≠ c := by
            intro hxx
            exact hc (le_of_eq (hy.trans hxx.symm))
          simp [List.filter_cons, hy, hxc, ih]
        · simp [List.filter_cons, hy, ih]

theorem filter_sortDesc {α : Type} (key : α → ℚ) (c : ℚ) (l : List α) :
    (sortDesc key l).filter (fun a => decide (key a = c)) =
      l.filter (fun a => decide (key a = c)) := by
  induction l with
  | nil => simp [sortDesc]
  | cons x xs ih =>
      simp only [sortDesc, filter_insertDesc, ih, List.filter_cons]
      by_cases hx : key x = c <;> simp [hx]

/-- Claim C3: for every dataset, metric and N, `nlargest` returns
min N |D| records, sorted descending by the metric; every returned record's
metric dominates every record left out; returned and left-out records
together are a permutation of the dataset; ties are broken by original row
order (for each metric value, the records carrying it appear in their
original dataset order — the sort is stable); and for N ≥ |D| the result is
the whole dataset, sorted. -/
theorem c3_topN_ranking (D : List Record) (f : Record → ℚ) (n : ℕ) :
    (nlargest n f D).length = min n D.length ∧
    (nlargest n f D).Sorted (fun a b => f b ≤ f a) ∧
    (∀ x ∈ nlargest n f D, ∀ y ∈ (sortDesc f D).drop n, f y ≤ f x) ∧
    (nlargest n f D ++ (sortDesc f D).drop n).Perm D ∧
    (∀ c : ℚ, (sortDesc f D).filter (fun a => decide (f a = c)) =
        D.filter (fun a => decide (f a = c))) ∧
    (D.length ≤ n → (nlargest n f D).Perm D) := by
  have hperm := perm_sortDesc f D
  have hsorted := sorted_sortDesc f D
  refine ⟨?_, ?_, ?_, ?_, ?_, ?_⟩
  · rw [nlargest, List.length_take, hperm.length_eq]
  · exact List.Pairwise.sublist (List.take_sublist _ _) hsorted
  · intro x hx y hy
    have hp : List.Pairwise (fun a b => f b ≤ f a)
        ((sortDesc f D).take n ++ (sortDesc f D).drop n) := by
      rw [List.take_append_drop]
      exact hsorted
    exact (List.pairwise_append.mp hp).2.2 x hx y hy
  · rw [nlargest, List.take_append_drop]
    exact hperm
  · exact fun c => filter_sortDesc f c D
  · intro h
    have hlen : (sortDesc f D).length ≤ n := by
      rw [hperm.length_eq]
      exact h
    rw [nlargest, List.take_of_length_le hlen]
    exact hperm

/-- Claim C3 witness: on a concrete three-record dataset with N = 5 ≥ 3 the
ranking has min 5 3 records and is a permutation of the dataset. -/
theorem c3_topN_ranking_witness :
    (nlargest 5 Record.population exD).length = min 5 exD.length ∧
    (nlargest 5 Record.population exD).Perm exD :=
  ⟨(c3_topN_ranking exD Record.population 5).1,
   (c3_topN_ranking exD Record.population 5).2.2.2.2.2 (by decide)⟩

/-- Claim C4 counterexample: on a concrete dataset without "Atlantis", the
country lookup yields the uncaught `IndexError` of `.iloc[0]` on an empty
selection — a crash — and not the reported typed `notFoundError` that the
claim asserts. -/
theorem c4_lookup_counterexample :
    countryLookup exD "Atlantis" = .uncaughtIndexError ∧
    countryLookup exD "Atlantis" ≠ .notFoundError := by
  decide

/-- Claim C4 amended: when the name is present the lookup returns exactly
one record — the first matching one; when the name is absent it fails with
an uncaught `IndexError` (an unhandled crash), not with a reported typed
`NotFoundError`. -/
theorem c4_amended_lookup (D : List Record) (name : String) :
    ((∃ r ∈ D, r.country = name) →
      ∃ r ∈ D, r.country = name ∧ countryLookup D name = .record r) ∧
    ((∀ r ∈ D, r.country ≠ name) →
      countryLookup D name = .uncaughtIndexError) := by
  constructor
  · rintro ⟨r0, hr0, hname⟩
    cases hf : D.filter (fun r => decide (r.country = name)) with
    | nil =>
        exfalso
        have hall := List.filter_eq_nil_iff.mp hf r0 hr0
        simp at hall
        exact hall hname
    | cons r rs =>
        have hr : r ∈ D.filter (fun r => decide (r.country = name)) := by
          rw [hf]
          exact List.mem_cons_self r rs
        have hmem := List.mem_filter.mp hr
        refine ⟨r, hmem.1, by simpa using hmem.2, ?_⟩
        rw [countryLookup, hf]
  · intro h
    have hf : D.filter (fun r => decide (r.country = name)) = [] := by
      apply List.filter_eq_nil_iff.mpr
      intro a ha
      simpa using h a ha
    rw [countryLookup, hf]

/-- Claim C4 amended witness: the lookup finds "China" in a concrete
dataset and crashes with `IndexError` on "Atlantis". -/
theorem c4_amended_lookup_witness :
    (∃ r ∈ exD, r.country = "China" ∧
        countryLookup exD "China" = .record r) ∧
    countryLookup exD "Atlantis" = .uncaughtIndexError :=
  ⟨(c4_amended_lookup exD "China").1 ⟨exChina, by decide, by decide⟩,
   (c4_amended_lookup exD "Atlantis").2 (by decide)⟩

/-- Claim C6: the multi-country filter returns exactly the records whose
country is among the selected names, in dataset order (it is a sublist of
the dataset, with membership and multiplicity characterized), and a
selected name matching no record is silently ignored: prepending such a
name to the selection leaves the result unchanged, with no error. -/
theorem c6_multi_country_filter (selected : List String) (D : List Record) :
    List.Sublist (filterCountries selected D) D ∧
    (∀ r : Record, r ∈ filterCountries selected D ↔
        r ∈ D ∧ r.country ∈ selected) ∧
    (∀ x : String, (∀ r ∈ D, r.country ≠ x) →
        filterCountries (x :: selected) D = filterCountries selected D) := by
  refine ⟨List.filter_sublist _, ?_, ?_⟩
  · intro r
    rw [filterCountries, List.mem_filter]
    simp
  · intro x hx
    rw [filterCountries, filterCountries]
    apply List.filter_congr
    intro r hr
    simp [List.contains_cons, hx r hr]

/-- Claim C6 witness: on a concrete dataset containing both, selecting
China and Kenya returns records whose membership matches, and prepending
the absent "Atlantis" changes nothing. -/
theorem c6_multi_country_filter_witness :
    (exChina ∈ filterCountries ["China", "Kenya"] exD ↔
      exChina ∈ exD ∧ exChina.country ∈ (["China", "Kenya"] : List String)) ∧
    filterCountries ["Atlantis", "China", "Kenya"] exD =
      filterCountries ["China", "Kenya"] exD :=
  ⟨(c6_multi_country_filter ["China", "Kenya"] exD).2.1 exChina,
   (c6_multi_country_filter ["China", "Kenya"] exD).2.2 "Atlantis" (by decide)⟩

/-- Claim C8: the continent filter with the sentinel "All" is the identity
on the dataset, and with any other continent name it returns exactly the
records whose continent equals that name, in dataset order. -/
theorem c8_continent_filter (D : List Record) (c : String) :
    continentFilter "All" D = D ∧
    (c ≠ "All" →
      (List.Sublist (continentFilter c D) D ∧
       ∀ r : Record, r ∈ continentFilter c D ↔ r ∈ D ∧ r.continent = c)) := by
  constructor
  · simp [continentFilter]
  · intro hc
    rw [continentFilter, if_neg hc]
    refine ⟨List.filter_sublist _, ?_⟩
    intro r
    rw [List.mem_filter]
    simp

/-- Claim C8 witness: on a concrete dataset, "All" is the identity and the
"Asia" filter is characterized by membership. -/
theorem c8_continent_filter_witness :
    continentFilter "All" exD = exD ∧
    (exKenya ∈ continentFilter "Asia" exD ↔
      exKenya ∈ exD ∧ exKenya.continent = "Asia") :=
  ⟨(c8_continent_filter exD "Asia").1,
   ((c8_continent_filter exD "Asia").2 (by decide)).2 exKenya⟩

/-- Claim C7: the long-format reshape of k records by m metric columns has
exactly m × k rows; for every metric and record there is an output row
carrying that record's country, the metric's column name and the record's
cell in that column; every output row is of that form; and when countries
and metric names are duplicate-free the output rows are pairwise distinct,
so there is exactly one row per (country, metric) pair. -/
theorem c7_melt_shape (metrics : List MetricCol) (D : List Record) :
    (melt metrics D).length = metrics.length * D.length ∧
    (∀ m ∈ metrics, ∀ r ∈ D,
        MeltRow.mk r.country m.colName (m.get r) ∈ melt metrics D) ∧
    (∀ row ∈ melt metrics D, ∃ m ∈ metrics, ∃ r ∈ D,
        row = MeltRow.mk r.country m.colName (m.get r)) ∧
    ((D.map Record.country).Nodup → (metrics.map MetricCol.colName).Nodup →
      (melt metrics D).Nodup) := by
  refine ⟨?_, ?_, ?_, ?_⟩
  · rw [melt, List.length_flatten, List.map_map]
    simp only [Function.comp_def, List.length_map]
    rw [List.map_const', List.sum_replicate, smul_eq_mul, mul_comm]
  · intro m hm r hr
    rw [melt, List.mem_flatten]
    exact ⟨D.map (fun r => MeltRow.mk r.country m.colName (m.get r)),
      List.mem_map_of_mem _ hm, List.mem_map_of_mem _ hr⟩
  · intro row hrow
    rw [melt, List.mem_flatten] at hrow
    obtain ⟨block, hblock, hrowin⟩ := hrow
    obtain ⟨m, hm, rfl⟩ := List.mem_map.mp hblock
    obtain ⟨r, hr, hrow2⟩ := List.mem_map.mp hrowin
    exact ⟨m, hm, r, hr, hrow2.symm⟩
  · intro hD hM
    rw [melt]
    apply List.nodup_flatten.mpr
    constructor
    · intro block hblock
      obtain ⟨m, hm, rfl⟩ := List.mem_map.mp hblock
      have hproj : ((D.map
          (fun r => MeltRow.mk r.country m.colName (m.get r))).map
            MeltRow.country).Nodup := by
        rw [List.map_map]
        simpa [Function.comp_def] using hD
      exact List.Nodup.of_map _ hproj
    · rw [List.pairwise_map]
      have hM2 : metrics.Pairwise
          (fun m1 m2 => m1.colName ≠ m2.colName) :=
        List.pairwise_map.mp hM
      refine hM2.imp ?_
      intro m1 m2 hne row h1 h2
      obtain ⟨r1, _, h1e⟩ := List.mem_map.mp h1
      obtain ⟨r2, _, h2e⟩ := List.mem_map.mp h2
      apply hne
      have hm1 : m1.colName = row.metric := by rw [← h1e]
      rw [hm1, ← h2e]

/-- Claim C7 witness: melting a concrete two-record dataset over the four
metric columns gives 4 × 2 pairwise-distinct rows. -/
theorem c7_melt_shape_witness :
    (melt meltValueVars exD2).length = meltValueVars.length * exD2.length ∧
    (melt meltValueVars exD2).Nodup :=
  ⟨(c7_melt_shape meltValueVars exD2).1,
   (c7_melt_shape meltValueVars exD2).2.2.2 (by decide) (by decide)⟩

/-- Claim C10: with an empty selection tab 4 renders only the informational
prompt; with a non-empty selection it renders the comparison made of the
multi-country filter and the reshape of its result; and any comparison
output can only arise from a non-empty selection — the filter and the
reshape are never applied to an empty selection. -/
theorem c10_tab4_guard (D : List Record) (selected : List String) :
    tab4Render D [] = .infoPrompt ∧
    (selected ≠ [] →
      tab4Render D selected =
        .comparison (filterCountries selected D)
          (melt meltValueVars (filterCountries selected D))) ∧
    (∀ tbl chart, tab4Render D selected = .comparison tbl chart →
        selected ≠ []) := by
  refine ⟨rfl, ?_, ?_⟩
  · intro h
    cases selected with
    | nil => exact absurd rfl h
    | cons s ss => rfl
  · intro tbl chart h hnil
    subst hnil
    simp [tab4Render] at h

/-- Claim C10 witness: concrete empty and non-empty selections. -/
theorem c10_tab4_guard_witness :
    tab4Render exD [] = .infoPrompt ∧
    tab4Render exD ["China", "Kenya"] =
      .comparison (filterCountries ["China", "Kenya"] exD)
        (melt meltValueVars (filterCountries ["China", "Kenya"] exD)) :=
  ⟨(c10_tab4_guard exD ["China", "Kenya"]).1,
   (c10_tab4_guard exD ["China", "Kenya"]).2.1 (by decide)⟩
